import Mathlib

/-
Shallow embedding of the scaling-plots repository (scaling_plot.py,
scaling_plot_categorical.py).  Python floats are modelled as rationals;
pandas Series are modelled as Lean lists; a pandas operation that raises
an exception is modelled as an `Except` value.
-/

namespace ScalingPlots

/-- Error taxonomy of the spec.  `dataError` models the Python exception
raised when `float()` is applied to a Series that does not have exactly
one element (the missing/ambiguous reference-row case); `importError`
models Python's ImportError at module load. -/
inductive Err where
  | dataError
  | importError
deriving DecidableEq, Repr

/-- One row of a per-group results frame as used by
`calculate_speedup_and_efficiency`: the `compute_elements` and `walltime`
columns. -/
structure GRow where
  compute_elements : Nat
  walltime : ℚ
deriving DecidableEq, Repr

/-- The row selection `rdf.loc[rdf[compute_element_col_index] == 1]` from
scaling_plot.py line 158. -/
def ceFilter (rows : List GRow) : List GRow :=
  rows.filter (fun r => r.compute_elements == 1)

/-- `t1 = float(rdf.loc[rdf[ce] == 1][time])` (scaling_plot.py line 158):
`float` of a one-element Series yields its value; on an empty or
multi-element Series it raises, modelled as `Err.dataError`. -/
def t1OfGroup (rows : List GRow) : Except Err ℚ :=
  match ceFilter rows with
  | [r] => .ok r.walltime
  | _ => .error .dataError

/-- `speedup = t1 / rdf[time_col_index]` (line 161): elementwise division
of the reference time by the walltime column. -/
def speedupOf (t1 : ℚ) (rows : List GRow) : List ℚ :=
  rows.map (fun r => t1 / r.walltime)

/-- `strong_efficiency = t1 / (rdf[time] * rdf[ce])` (line 164). -/
def strongEffOf (t1 : ℚ) (rows : List GRow) : List ℚ :=
  rows.map (fun r => t1 / (r.walltime * (r.compute_elements : ℚ)))

/-- `weak_efficiency = t1 / rdf[time_col_index]` (line 167). -/
def weakEffOf (t1 : ℚ) (rows : List GRow) : List ℚ :=
  rows.map (fun r => t1 / r.walltime)

/-- `calculate_speedup_and_efficiency` (scaling_plot.py lines 143-169):
computes the reference value t1, then returns the triple of the three
derived series; the t1 lookup is the only failing step. -/
def calculate_speedup_and_efficiency (rows : List GRow) :
    Except Err (List ℚ × List ℚ × List ℚ) :=
  (t1OfGroup rows).map
    (fun t1 => (speedupOf t1 rows, strongEffOf t1 rows, weakEffOf t1 rows))

/-- A fixed three-point group used as a concrete evaluation input: the
spec scenario (n, t) = (1, 100), (2, 60), (4, 20). -/
def rows3 : List GRow := [⟨1, 100⟩, ⟨2, 60⟩, ⟨4, 20⟩]

/-- Claim C1: for a group whose rows contain exactly one row with
`compute_elements == 1` (that row being `r`, so t1 = `r.walltime`),
`calculate_speedup_and_efficiency` returns the triple
speedup(n) = t1 / walltime(n),
strong_efficiency(n) = t1 / (walltime(n) * compute_elements(n)),
weak_efficiency(n) = t1 / walltime(n), and the weak-efficiency series
equals the speedup series on every row. -/
theorem C1_metric_triple (rows : List GRow) (r : GRow)
    (h : ceFilter rows = [r]) :
    calculate_speedup_and_efficiency rows =
      .ok (rows.map (fun x => r.walltime / x.walltime),
           rows.map (fun x => r.walltime / (x.walltime * (x.compute_elements : ℚ))),
           rows.map (fun x => r.walltime / x.walltime))
    ∧ weakEffOf r.walltime rows = speedupOf r.walltime rows := by
  constructor
  · unfold calculate_speedup_and_efficiency t1OfGroup
    rw [h]
    rfl
  · rfl

/-- Witness for C1 at the concrete scenario group `rows3`. -/
theorem C1_metric_triple_witness :
    calculate_speedup_and_efficiency rows3 =
      .ok (rows3.map (fun x => (GRow.mk 1 100).walltime / x.walltime),
           rows3.map (fun x =>
             (GRow.mk 1 100).walltime / (x.walltime * (x.compute_elements : ℚ))),
           rows3.map (fun x => (GRow.mk 1 100).walltime / x.walltime))
    ∧ weakEffOf (GRow.mk 1 100).walltime rows3 =
        speedupOf (GRow.mk 1 100).walltime rows3 :=
  C1_metric_triple rows3 ⟨1, 100⟩ (by decide)

/-- The speedup series has one entry per input row. -/
theorem length_speedupOf (t1 : ℚ) (rows : List GRow) :
    (speedupOf t1 rows).length = rows.length := by
  simp [speedupOf]

/-- The strong-efficiency series has one entry per input row. -/
theorem length_strongEffOf (t1 : ℚ) (rows : List GRow) :
    (strongEffOf t1 rows).length = rows.length := by
  simp [strongEffOf]

/-- A row selected by `ceFilter` from a singleton result is the reference
row itself. -/
theorem eq_ref_of_ce_one (rows : List GRow) (r : GRow)
    (h : ceFilter rows = [r]) (x : GRow) (hx : x ∈ rows)
    (hce : x.compute_elements = 1) : x = r := by
  have hmem : x ∈ ceFilter rows := by
    simp [ceFilter, List.mem_filter, hx, hce]
  rw [h] at hmem
  simpa using hmem

/-- The reference row returned by `ceFilter` belongs to the group. -/
theorem ref_mem_of_ceFilter (rows : List GRow) (r : GRow)
    (h : ceFilter rows = [r]) : r ∈ rows := by
  have : r ∈ ceFilter rows := by rw [h]; simp
  exact List.mem_of_mem_filter this

/-- Claim C8: in a group with a unique reference row at
`compute_elements == 1` and positive walltimes, the computed speedup at
that row is exactly 1 and the computed strong efficiency at that row is
exactly 1. -/
theorem C8_reference_row_unit (rows : List GRow) (r : GRow)
    (h : ceFilter rows = [r])
    (hpos : ∀ x ∈ rows, 0 < x.walltime)
    (i : Fin rows.length)
    (hce : (rows.get i).compute_elements = 1) :
    (speedupOf r.walltime rows).get
      (Fin.cast (length_speedupOf r.walltime rows).symm i) = 1
    ∧ (strongEffOf r.walltime rows).get
      (Fin.cast (length_strongEffOf r.walltime rows).symm i) = 1 := by
  have hxr : rows.get i = r :=
    eq_ref_of_ce_one rows r h (rows.get i) (rows.get_mem i i.isLt) hce
  have hw : r.walltime ≠ 0 :=
    ne_of_gt (hpos r (ref_mem_of_ceFilter rows r h))
  constructor
  · simp [speedupOf, List.get_eq_getElem, List.getElem_map]
    rw [show rows[(i : Nat)] = rows.get i from rfl, hxr]
    exact div_self hw
  · simp [strongEffOf, List.get_eq_getElem, List.getElem_map]
    rw [show rows[(i : Nat)] = rows.get i from rfl, hxr]
    rw [show r.compute_elements = 1 from hxr ▸ hce]
    simp [div_self hw]

/-- Witness for C8 at the concrete group `rows3`, row index 0. -/
theorem C8_reference_row_unit_witness :
    (speedupOf (GRow.mk 1 100).walltime rows3).get
      (Fin.cast (length_speedupOf (GRow.mk 1 100).walltime rows3).symm
        ⟨0, by decide⟩) = 1
    ∧ (strongEffOf (GRow.mk 1 100).walltime rows3).get
      (Fin.cast (length_strongEffOf (GRow.mk 1 100).walltime rows3).symm
        ⟨0, by decide⟩) = 1 :=
  C8_reference_row_unit rows3 ⟨1, 100⟩ (by decide) (by decide)
    ⟨0, by decide⟩ (by decide)

/-- Claim C9: in a group with a unique reference row, positive walltimes,
and walltime non-increasing along the row order (the rows are sorted
ascending by compute elements), the computed speedup series is
non-decreasing along the row order. -/
theorem C9_monotone_speedup (rows : List GRow) (r : GRow)
    (h : ceFilter rows = [r])
    (hpos : ∀ x ∈ rows, 0 < x.walltime)
    (hmono : ∀ i j : Fin rows.length, i ≤ j →
      (rows.get j).walltime ≤ (rows.get i).walltime)
    (i j : Fin rows.length) (hij : i ≤ j) :
    (speedupOf r.walltime rows).get
      (Fin.cast (length_speedupOf r.walltime rows).symm i)
    ≤ (speedupOf r.walltime rows).get
      (Fin.cast (length_speedupOf r.walltime rows).symm j) := by
  have ht1 : 0 < r.walltime := hpos r (ref_mem_of_ceFilter rows r h)
  have hwi : 0 < (rows.get i).walltime := hpos _ (rows.get_mem i i.isLt)
  have hwj : 0 < (rows.get j).walltime := hpos _ (rows.get_mem j j.isLt)
  have hle : (rows.get j).walltime ≤ (rows.get i).walltime := hmono i j hij
  simp [speedupOf, List.get_eq_getElem, List.getElem_map]
  rw [show rows[(i : Nat)] = rows.get i from rfl,
      show rows[(j : Nat)] = rows.get j from rfl]
  exact div_le_div_of_nonneg_left (le_of_lt ht1) hwj hle

/-- Witness for C9 at the concrete group `rows3`, indices 0 and 2. -/
theorem C9_monotone_speedup_witness :
    (speedupOf (GRow.mk 1 100).walltime rows3).get
      (Fin.cast (length_speedupOf (GRow.mk 1 100).walltime rows3).symm
        ⟨0, by decide⟩)
    ≤ (speedupOf (GRow.mk 1 100).walltime rows3).get
      (Fin.cast (length_speedupOf (GRow.mk 1 100).walltime rows3).symm
        ⟨2, by decide⟩) :=
  C9_monotone_speedup rows3 ⟨1, 100⟩ (by decide) (by decide) (by decide)
    ⟨0, by decide⟩ ⟨2, by decide⟩ (by decide)

/-- The per-group metric loop of the scaling main block (lines 447-452):
`calculate_speedup_and_efficiency` is invoked on every group frame in
turn; the first raised exception aborts the whole run. -/
def scalingRun : List (List GRow) →
    Except Err (List (List ℚ × List ℚ × List ℚ))
  | [] => .ok []
  | g :: gs => do
      let m ← calculate_speedup_and_efficiency g
      let ms ← scalingRun gs
      pure (m :: ms)

/-- The charts the scaling main block produces: the per-group metric
triples reach the plotting calls (lines 476-523) only when every group
computation succeeded; an exception aborts the script before any plot. -/
def scalingCharts (groups : List (List GRow)) :
    List (List ℚ × List ℚ × List ℚ) :=
  match scalingRun groups with
  | .ok ms => ms
  | .error _ => []

/-- One row of the categorical results table: the category column and the
`walltime` column (scaling_plot_categorical.py). -/
structure CRow where
  category : String
  walltime : ℚ
deriving DecidableEq, Repr

/-- The row selection
`results.loc[results[category_column] == baseline_category]`
(scaling_plot_categorical.py lines 203-205). -/
def baselineFilter (baseline : String) (rows : List CRow) : List CRow :=
  rows.filter (fun r => r.category == baseline)

/-- `t1 = float(results.loc[cat == baseline]["walltime"])` (categorical
lines 203-205): succeeds exactly when the selection has one row. -/
def t1Categorical (baseline : String) (rows : List CRow) : Except Err ℚ :=
  match baselineFilter baseline rows with
  | [r] => .ok r.walltime
  | _ => .error .dataError

/-- `results["speedup"] = t1 / results["walltime"]` (categorical line
206), downstream of the fallible t1 lookup. -/
def categoricalSpeedups (baseline : String) (rows : List CRow) :
    Except Err (List ℚ) :=
  (t1Categorical baseline rows).map (fun t1 => rows.map (fun r => t1 / r.walltime))

/-- The charts the categorical main block produces: the walltime and
speedup bar charts (lines 214-243) are drawn only after the speedup
computation (lines 202-206) succeeded. -/
def categoricalCharts (baseline : String) (rows : List CRow) :
    List (List ℚ) :=
  match categoricalSpeedups baseline rows with
  | .ok s => [rows.map CRow.walltime, s]
  | .error _ => []

/-- `calculate_speedup_and_efficiency` either succeeds or fails with
`dataError`; no other error is possible. -/
theorem calc_ok_or_dataError (g : List GRow) :
    (∃ v, calculate_speedup_and_efficiency g = .ok v)
    ∨ calculate_speedup_and_efficiency g = .error .dataError := by
  unfold calculate_speedup_and_efficiency t1OfGroup
  rcases hf : ceFilter g with _ | ⟨a, _ | ⟨b, t⟩⟩ <;> simp [Except.map]

/-- A group whose `compute_elements == 1` selection does not have exactly
one row makes `calculate_speedup_and_efficiency` fail with `dataError`. -/
theorem calc_error_of_bad (g : List GRow)
    (hbad : (ceFilter g).length ≠ 1) :
    calculate_speedup_and_efficiency g = .error .dataError := by
  unfold calculate_speedup_and_efficiency t1OfGroup
  rcases hf : ceFilter g with _ | ⟨a, _ | ⟨b, t⟩⟩ <;>
    simp_all [Except.map]

/-- If any group is bad, the whole per-group metric loop fails with
`dataError`. -/
theorem scalingRun_error (groups : List (List GRow)) (g : List GRow)
    (hg : g ∈ groups) (hbad : (ceFilter g).length ≠ 1) :
    scalingRun groups = .error .dataError := by
  induction groups with
  | nil => cases hg
  | cons a as ih =>
    rcases List.mem_cons.mp hg with rfl | hmem
    · have := calc_error_of_bad g hbad
      simp only [scalingRun, this]
      rfl
    · rcases calc_ok_or_dataError a with ⟨v, hv⟩ | herr
      · have hrec := ih hmem
        simp only [scalingRun, hv, hrec]
        rfl
      · simp only [scalingRun, herr]
        rfl

/-- Claim C2: when a scaling group has no row (or several rows) at
`compute_elements == 1`, or a categorical table has no row (or several
rows) at the baseline category, the metric computation fails with
`dataError` instead of picking a reference arbitrarily, and no chart is
produced. -/
theorem C2_reference_failure (groups : List (List GRow)) (g : List GRow)
    (hg : g ∈ groups) (hbad : (ceFilter g).length ≠ 1)
    (baseline : String) (crows : List CRow)
    (hcbad : (baselineFilter baseline crows).length ≠ 1) :
    scalingRun groups = .error .dataError
    ∧ scalingCharts groups = []
    ∧ categoricalSpeedups baseline crows = .error .dataError
    ∧ categoricalCharts baseline crows = [] := by
  have hs := scalingRun_error groups g hg hbad
  have hc : categoricalSpeedups baseline crows = .error .dataError := by
    unfold categoricalSpeedups t1Categorical
    rcases hf : baselineFilter baseline crows with _ | ⟨a, _ | ⟨b, t⟩⟩ <;>
      simp_all [Except.map]
  refine ⟨hs, ?_, hc, ?_⟩
  · simp [scalingCharts, hs]
  · simp [categoricalCharts, hc]

/-- Witness for C2: a group with rows only at 2 and 4 compute elements,
and a categorical table with two rows in the baseline category. -/
theorem C2_reference_failure_witness :
    scalingRun [[GRow.mk 2 60, GRow.mk 4 20]] = .error .dataError
    ∧ scalingCharts [[GRow.mk 2 60, GRow.mk 4 20]] = []
    ∧ categoricalSpeedups "baseline"
        [CRow.mk "baseline" 50, CRow.mk "baseline" 40, CRow.mk "v2" 25]
        = .error .dataError
    ∧ categoricalCharts "baseline"
        [CRow.mk "baseline" 50, CRow.mk "baseline" 40, CRow.mk "v2" 25]
        = [] :=
  C2_reference_failure [[⟨2, 60⟩, ⟨4, 20⟩]] [⟨2, 60⟩, ⟨4, 20⟩]
    (by decide) (by decide) "baseline"
    [⟨"baseline", 50⟩, ⟨"baseline", 40⟩, ⟨"v2", 25⟩] (by decide)

/-- One row of the raw scaling input table: the `group`,
`compute_elements` and `walltime` columns, plus the value of the optional
filter column when one is configured (`none` models a missing/NaN cell, a
comparison with which is false in pandas). -/
structure SRow where
  group : Option String
  compute_elements : Nat
  walltime : ℚ
  filterVal : Option ℚ
deriving DecidableEq, Repr

/-- The boolean test the code applies to the optional filter column:
`results[results[filter_column] > 0]` (scaling_plot.py line 430,
categorical line 197). -/
def codeFilterTruthy (r : SRow) : Bool :=
  match r.filterVal with
  | some v => decide (0 < v)
  | none => false

/-- The spec's wording of the filter-column test, for comparison: the
value is truthy after numeric/boolean coercion, i.e. nonzero (Python
`bool(v)`). -/
def specTruthy (v : Option ℚ) : Bool :=
  match v with
  | some q => decide (q ≠ 0)
  | none => false

/-- The Filter step of the main blocks (scaling_plot.py lines 425-430,
categorical lines 192-197): keep rows with a non-null key and
`walltime > 0`, then, when a filter column is configured, keep rows whose
filter value is `> 0`. -/
def filteredRows (useFilter : Bool) (rows : List SRow) : List SRow :=
  let complete := rows.filter (fun r => r.group.isSome && decide (0 < r.walltime))
  if useFilter then complete.filter codeFilterTruthy else complete

/-- Counterexample to claim C3 as stated: a row whose filter value -1 is
truthy under numeric/boolean coercion (nonzero) is nevertheless dropped,
because the code tests `> 0`, not truthiness. -/
theorem C3_counterexample :
    specTruthy (SRow.mk (some "A") 1 1 (some (-1))).filterVal = true
    ∧ (SRow.mk (some "A") 1 1 (some (-1))).group.isSome = true
    ∧ 0 < (SRow.mk (some "A") 1 1 (some (-1))).walltime
    ∧ filteredRows true [SRow.mk (some "A") 1 1 (some (-1))] = [] := by
  refine ⟨by decide, by decide, by decide, ?_⟩
  rfl

/-- Claim C3 (amended): the Filter step retains exactly the rows whose
key is non-null, whose walltime is strictly positive, and, when a filter
column is configured, whose filter value is strictly greater than zero. -/
theorem C3_filter_retained (useFilter : Bool) (rows : List SRow) (r : SRow) :
    r ∈ filteredRows useFilter rows ↔
      r ∈ rows ∧ r.group.isSome = true ∧ 0 < r.walltime
        ∧ (useFilter = true → ∃ v, r.filterVal = some v ∧ 0 < v) := by
  cases useFilter with
  | false =>
    simp [filteredRows, List.mem_filter, and_assoc]
  | true =>
    rcases hv : r.filterVal with _ | v <;>
      simp [filteredRows, List.mem_filter, codeFilterTruthy, hv, and_assoc]
    tauto

/-- Witness for C3 (amended) at a concrete retained row. -/
theorem C3_filter_retained_witness :
    SRow.mk (some "A") 1 5 none ∈
      filteredRows false [SRow.mk (some "A") 1 5 none] :=
  (C3_filter_retained false [SRow.mk (some "A") 1 5 none]
      (SRow.mk (some "A") 1 5 none)).mpr
    ⟨by decide, by decide, by decide, by simp⟩

/-- The pandas `.mean()` of a column: sum divided by row count. -/
def mean (xs : List ℚ) : ℚ := xs.sum / xs.length

/-- `results.groupby(keys).mean().reset_index()` specialised to the
`walltime` column: one output row per distinct key (first-occurrence
order stands in for the groupby ordering, which no claim depends on),
carrying the arithmetic mean of the matching walltimes.  Instantiated
with key `(group, compute_elements)` for scaling_plot.py line 434 and
with the category key for scaling_plot_categorical.py line 200. -/
def groupMeanBy {K : Type} [DecidableEq K] (key : SRow → K)
    (rows : List SRow) : List (K × ℚ) :=
  ((rows.map key).dedup).map
    (fun k => (k, mean ((rows.filter (fun r => decide (key r = k))).map SRow.walltime)))

/-- The scaling groupby key: the `(group, compute_elements)` pair. -/
def keyGC (r : SRow) : Option String × Nat := (r.group, r.compute_elements)

/-- Two rows sharing the (A, 1) key with walltimes 10 and 20. -/
def dupRows : List SRow :=
  [⟨some "A", 1, 10, none⟩, ⟨some "A", 1, 20, none⟩]

/-- A group with one row per compute-element value. -/
def srows3 : List SRow :=
  [⟨some "A", 1, 100, none⟩, ⟨some "A", 2, 60, none⟩, ⟨some "A", 4, 20, none⟩]

/-- When the mapped keys are pairwise distinct, each key selects exactly
its own row. -/
theorem filter_key_singleton {K : Type} [DecidableEq K] (key : SRow → K)
    (rows : List SRow) (h : (rows.map key).Nodup) (r : SRow)
    (hr : r ∈ rows) :
    rows.filter (fun x => decide (key x = key r)) = [r] := by
  induction rows with
  | nil => cases hr
  | cons a as ih =>
    rw [List.map_cons, List.nodup_cons] at h
    obtain ⟨hna, hnd⟩ := h
    rcases List.mem_cons.mp hr with rfl | hmem
    · rw [List.filter_cons, if_pos (by simp)]
      congr 1
      rw [List.filter_eq_nil_iff]
      intro x hx hkx
      exact hna (by
        rw [decide_eq_true_eq] at hkx
        exact hkx ▸ List.mem_map_of_mem key hx)
    · have hka : key a ≠ key r := fun he =>
        hna (he ▸ List.mem_map_of_mem key hmem)
      rw [List.filter_cons, if_neg (by simpa using hka)]
      exact ih hnd hmem

/-- Claim C4: the aggregation step produces one row per distinct key,
each carrying the arithmetic mean of the matching walltimes; a table
whose keys are already distinct keeps every walltime unchanged; and the
two duplicate (A, 1) rows with walltimes 10 and 20 aggregate to 15. -/
theorem C4_aggregate_mean {K : Type} [DecidableEq K] (key : SRow → K)
    (rows : List SRow) :
    (groupMeanBy key rows).map Prod.fst = (rows.map key).dedup
    ∧ (∀ p ∈ groupMeanBy key rows,
        p.2 = mean ((rows.filter (fun r => decide (key r = p.1))).map SRow.walltime))
    ∧ ((rows.map key).Nodup →
        groupMeanBy key rows = rows.map (fun r => (key r, r.walltime)))
    ∧ groupMeanBy keyGC dupRows = [((some "A", 1), 15)] := by
  refine ⟨?_, ?_, ?_, ?_⟩
  · simp [groupMeanBy, List.map_map, Function.comp_def]
  · intro p hp
    simp only [groupMeanBy, List.mem_map] at hp
    obtain ⟨k, _, rfl⟩ := hp
    rfl
  · intro hnd
    unfold groupMeanBy
    rw [List.dedup_eq_self.mpr hnd, List.map_map]
    apply List.map_congr_left
    intro r hr
    simp only [Function.comp_apply, Prod.mk.injEq, true_and]
    rw [filter_key_singleton key rows hnd r hr]
    simp [mean]
  · have hred : groupMeanBy keyGC dupRows
        = [((some "A", 1), mean [10, 20])] := by rfl
    rw [hred]
    norm_num [mean]

/-- Witness for C4 at the already-deduplicated group `srows3`. -/
theorem C4_aggregate_mean_witness :
    groupMeanBy keyGC srows3 = srows3.map (fun r => (keyGC r, r.walltime)) :=
  (C4_aggregate_mean keyGC srows3).2.2.1 (by decide)

/-- The fixed CSIRO colour palette of the scaling main block
(scaling_plot.py lines 401-411). -/
def colours : List String :=
  ["#00a9ce", "#78be20", "#DF1995", "#E87722", "#E4002B",
   "#00616c", "#FFB81C", "#6D2077", "#1E22AA"]

/-- The per-group series collected by the assembly loop (scaling_plot.py
lines 457-472), here for one metric: one series per group, in the
iteration order of the group map. -/
def seriesOf (gs : List (String × List ℚ)) : List (List ℚ) :=
  gs.map Prod.snd

/-- The group display names collected by the same loop, in the same
order. -/
def namesOf (gs : List (String × List ℚ)) : List String :=
  gs.map Prod.fst

/-- The `zip(series, colours, series_names)` pairing each plot function
iterates over (scaling_plot.py lines 203, 268, 332): Python `zip` stops
at the shortest argument. -/
def plotTriples (series : List (List ℚ)) (cs : List String)
    (names : List String) : List (List ℚ × String × String) :=
  (series.zip (cs.zip names)).map (fun p => (p.1, p.2.1, p.2.2))

/-- Counterexample to claim C5 as stated: with a single group the series
and name sequences have length 1 while the colour sequence handed to the
renderer is the whole 9-colour palette, so the three sequences do not
have equal length. -/
theorem C5_counterexample :
    (seriesOf [("A", [1])]).length = 1
    ∧ (namesOf [("A", [1])]).length = 1
    ∧ colours.length = 9
    ∧ colours.length ≠ (seriesOf [("A", [1])]).length := by
  refine ⟨rfl, rfl, rfl, by decide⟩

/-- Claim C5 (amended): the series and name sequences always have equal
length and consistent pairwise indexing; the colour argument is the whole
fixed palette, so the renderer's zip truncates the plotted triples to
`min` of the group count and the palette size, pairing the i-th series
with the i-th palette colour and the i-th name (no round-robin
cycling). -/
theorem C5_series_alignment (gs : List (String × List ℚ)) :
    (seriesOf gs).length = gs.length
    ∧ (namesOf gs).length = gs.length
    ∧ (plotTriples (seriesOf gs) colours (namesOf gs)).length
        = min gs.length colours.length
    ∧ ∀ (i : Nat) (h : i < (plotTriples (seriesOf gs) colours (namesOf gs)).length)
        (h1 : i < gs.length) (h2 : i < colours.length),
        (plotTriples (seriesOf gs) colours (namesOf gs)).get ⟨i, h⟩ =
          ((gs.get ⟨i, h1⟩).2, colours.get ⟨i, h2⟩, (gs.get ⟨i, h1⟩).1) := by
  refine ⟨by simp [seriesOf], by simp [namesOf], ?_, ?_⟩
  · simp [plotTriples, seriesOf, namesOf]
    omega
  · intro i h h1 h2
    simp [plotTriples, seriesOf, namesOf, List.get_eq_getElem,
      List.getElem_zip, List.getElem_map]

/-- Witness for C5 (amended) at a one-group result set, index 0. -/
theorem C5_series_alignment_witness :
    (plotTriples (seriesOf [("A", [1, 2])]) colours
      (namesOf [("A", [1, 2])])).get ⟨0, by decide⟩ =
      (([("A", [1, 2])].get ⟨0, by decide⟩).2, colours.get ⟨0, by decide⟩,
       ([("A", [1, 2])].get ⟨0, by decide⟩).1) :=
  (C5_series_alignment [("A", [1, 2])]).2.2.2 0 (by decide) (by decide)
    (by decide)

/-- The names scaling_plot.py binds at module level (its function
definitions plus the imported module aliases); the colour palette and
every other main-block variable are bound only when the file runs as a
script, not when it is imported. -/
def scalingPlotModuleNames : List String :=
  ["os", "sys", "pd", "np", "matplotlib", "plt", "argparse",
   "get_args", "save", "read_dataframe_from_excel",
   "calculate_speedup_and_efficiency", "plot_walltime", "plot_speedup",
   "plot_efficiency", "add_optional_prefix"]

/-- The names scaling_plot_categorical.py imports from scaling_plot
(lines 10-16). -/
def categoricalImportedNames : List String :=
  ["COLOURS", "add_optional_prefix", "add_sorted_legend",
   "read_dataframe_from_excel", "save"]

/-- Python's from-import succeeds only when every requested name is
bound in the imported module. -/
def categoricalImportOk : Bool :=
  categoricalImportedNames.all (fun n => scalingPlotModuleNames.contains n)

/-- The categorical script: the import statement runs at module load,
before any command-line parsing or input reading; only if it succeeds
does the pipeline run on the input rows. -/
def categoricalScript (baseline : String) (rows : List CRow) :
    Except Err (List (List ℚ)) :=
  if categoricalImportOk then .ok (categoricalCharts baseline rows)
  else .error .importError

/-- Claim C10: scaling_plot_categorical.py imports `COLOURS` and
`add_sorted_legend` from scaling_plot, but scaling_plot binds neither at
module level (the palette is a local of its main block), so every
invocation of the categorical variant fails at import, before any input
is read. -/
theorem C10_import_failure :
    "COLOURS" ∈ categoricalImportedNames
    ∧ "COLOURS" ∉ scalingPlotModuleNames
    ∧ "add_sorted_legend" ∈ categoricalImportedNames
    ∧ "add_sorted_legend" ∉ scalingPlotModuleNames
    ∧ categoricalImportOk = false
    ∧ ∀ (baseline : String) (rows : List CRow),
        categoricalScript baseline rows = .error .importError := by
  refine ⟨by decide, by decide, by decide, by decide, by decide, ?_⟩
  intro baseline rows
  simp [categoricalScript, show categoricalImportOk = false from by decide]

/-- `add_optional_prefix` (scaling_plot.py lines 356-360): returns the
base string, prepending `prefix + separator` when the prefix argument is
truthy (argparse leaves it `None` when the option is absent; an empty
string is also falsy). -/
def add_optional_prefix (base : String) (pfx : Option String)
    (sep : String) : String :=
  match pfx with
  | some p => if p = "" then base else p ++ sep ++ base
  | none => base

/-- The walltime chart file stem (scaling_plot.py line 390). -/
def walltimeFile (pfx : Option String) : String :=
  add_optional_prefix "walltime" pfx "-"

/-- The speedup chart file stem (line 391). -/
def speedupFile (pfx : Option String) : String :=
  add_optional_prefix "speedup" pfx "-"

/-- The efficiency chart file stem (lines 392-395): the base name is
`weak-efficiency` or `strong-efficiency` depending on `--weak`. -/
def efficiencyFile (pfx : Option String) (weak : Bool) : String :=
  add_optional_prefix (if weak then "weak-efficiency" else "strong-efficiency")
    pfx "-"

/-- `os.path.split`: splits a path at its last slash into directory and
filename (the stripping of repeated trailing slashes from the directory
part, which no claim exercises, is not modelled). -/
def lastSlashSplit : List Char → List Char × List Char
  | [] => ([], [])
  | c :: rest =>
    if rest.contains '/' then
      ((c :: (lastSlashSplit rest).1), (lastSlashSplit rest).2)
    else if c = '/' then ([], rest)
    else ([], c :: rest)

/-- `os.path.split` lifted to strings. -/
def os_path_split (path : String) : String × String :=
  (String.mk (lastSlashSplit path.toList).1,
   String.mk (lastSlashSplit path.toList).2)

/-- The path computation of `save` (scaling_plot.py lines 103-114):
split off the directory, default it to `.`, append the extension to the
filename, and join; the directory is created on disk when missing. -/
def savePath (path ext : String) : String :=
  (if (os_path_split path).1 = "" then "." else (os_path_split path).1)
    ++ "/" ++ (os_path_split path).2 ++ "." ++ ext

/-- The run's output: an interactive window when `--window` is set,
otherwise the list of files written. -/
inductive Output where
  | window
  | files (paths : List String)
deriving DecidableEq, Repr

/-- The file stems the scaling main block saves, in plot order: walltime
(line 476), efficiency (line 491), and, unless `--weak`, speedup
(lines 509-510). -/
def scalingFileNames (pfx : Option String) (weak : Bool) : List String :=
  [walltimeFile pfx, efficiencyFile pfx weak]
    ++ (if weak then [] else [speedupFile pfx])

/-- What a scaling run emits: each plot call either shows a window
(`--window`) or saves to `savePath` of its file stem with extension
`png`. -/
def scalingOutputs (window : Bool) (pfx : Option String) (weak : Bool) :
    Output :=
  if window then .window
  else .files ((scalingFileNames pfx weak).map (fun n => savePath n "png"))

/-- A name without a slash splits into an empty directory and itself. -/
theorem lastSlashSplit_no_slash (cs : List Char)
    (h : cs.contains '/' = false) : lastSlashSplit cs = ([], cs) := by
  cases cs with
  | nil => rfl
  | cons c rest =>
    rw [List.contains_cons] at h
    simp only [Bool.or_eq_false_iff] at h
    obtain ⟨hc, hrest⟩ := h
    have hc2 : ¬ (c = '/') := fun he => by simp [he] at hc
    have hr2 : ('/' : Char) ∉ rest := by simpa using hrest
    simp [lastSlashSplit, hr2, hc2]

/-- For a slash-free stem, `save` writes to the current directory as
`./<stem>.<ext>`. -/
theorem savePath_no_slash (n ext : String)
    (h : n.toList.contains '/' = false) :
    savePath n ext = "./" ++ n ++ "." ++ ext := by
  unfold savePath os_path_split
  rw [lastSlashSplit_no_slash n.toList h]
  rfl

/-- Counterexample to claim C6 as stated: with no file prefix and strong
scaling, the saved files are `./walltime.png`, `./strong-efficiency.png`
and `./speedup.png`; no file named `efficiency.png` is produced — the
efficiency chart's base name is `strong-efficiency` (or
`weak-efficiency`), not `efficiency`. -/
theorem C6_counterexample :
    scalingOutputs false none false =
      .files ["./walltime.png", "./strong-efficiency.png", "./speedup.png"]
    ∧ efficiencyFile none false = "strong-efficiency"
    ∧ efficiencyFile none false ≠ "efficiency" := by
  refine ⟨rfl, rfl, by decide⟩

/-- The spec's file-stem wording: the prefix and a joining '-' are
present exactly when a (non-empty) file_prefix is given. -/
def specFileStem (base : String) (pfx : Option String) : String :=
  match pfx with
  | some p => if p = "" then base else p ++ "-" ++ base
  | none => base

/-- Claim C6 (amended): when `--window` is set the plots are displayed
instead of saved; otherwise the run writes
`<file_prefix->walltime.png`, `<file_prefix-><strong|weak>-efficiency.png`
and (unless `--weak`) `<file_prefix->speedup.png` into the current
directory (for slash-free names; a slash in the name instead selects a
directory that `save` auto-creates). -/
theorem C6_output_names (pfx : Option String) (weak window : Bool)
    (h1 : (walltimeFile pfx).toList.contains '/' = false)
    (h2 : (efficiencyFile pfx weak).toList.contains '/' = false)
    (h3 : (speedupFile pfx).toList.contains '/' = false) :
    (window = true → scalingOutputs window pfx weak = .window)
    ∧ (window = false → scalingOutputs window pfx weak =
        .files ((scalingFileNames pfx weak).map
          (fun n => "./" ++ n ++ "." ++ "png")))
    ∧ walltimeFile pfx = specFileStem "walltime" pfx
    ∧ speedupFile pfx = specFileStem "speedup" pfx
    ∧ efficiencyFile pfx weak =
        specFileStem (if weak then "weak-efficiency" else "strong-efficiency") pfx := by
  refine ⟨?_, ?_, rfl, rfl, rfl⟩
  · intro hw
    simp [scalingOutputs, hw]
  · intro hw
    subst hw
    simp only [scalingOutputs, if_neg Bool.false_ne_true, scalingFileNames]
    cases weak <;>
      simp [savePath_no_slash _ _ h1, savePath_no_slash _ _ h2,
        savePath_no_slash _ _ h3]

/-- Witness for C6 (amended) with prefix "run", strong scaling, saving
to files. -/
theorem C6_output_names_witness :
    scalingOutputs false (some "run") false =
      .files ((scalingFileNames (some "run") false).map
        (fun n => "./" ++ n ++ "." ++ "png")) :=
  (C6_output_names (some "run") false false (by decide) (by decide)
    (by decide)).2.1 rfl

/-- The `--style` handling of the scaling main block (scaling_plot.py
lines 369-373): `matplotlib.style.use` inside `try`/`except: pass` — an
invalid style is swallowed and the default style stays in effect, with
no message.  `valid` is the set of styles the installed matplotlib
accepts; the second component records whether a warning was printed. -/
def applyStyleScaling (valid : String → Bool) (style : String) :
    String × Bool :=
  if style = "" then ("default", false)
  else if valid style then (style, false)
  else ("default", false)

/-- The `--style` handling of the categorical main block
(scaling_plot_categorical.py lines 159-167): the `OSError` from an
invalid style is caught and a warning line is printed before continuing
with the default style. -/
def applyStyleCategorical (valid : String → Bool) (style : String) :
    String × Bool :=
  if style = "" then ("default", false)
  else if valid style then (style, false)
  else ("default", true)

/-- Counterexample to claim C7 as stated: in the scaling variant an
invalid `--style` is caught and the default style is used, but no
warning is emitted (the handler is a bare `except: pass`). -/
theorem C7_counterexample :
    applyStyleScaling (fun _ => false) "bogus" = ("default", false) := by
  rfl

/-- Claim C7 (amended): an invalid `--style` is the one recoverable
condition — it is caught and execution continues with the default style
in both variants; the categorical variant prints a warning while the
scaling variant stays silent; a valid style is applied without
warning. -/
theorem C7_style_recovery (valid : String → Bool) (style : String)
    (hne : style ≠ "") :
    (valid style = false →
      applyStyleScaling valid style = ("default", false)
      ∧ applyStyleCategorical valid style = ("default", true))
    ∧ (valid style = true →
      applyStyleScaling valid style = (style, false)
      ∧ applyStyleCategorical valid style = (style, false)) := by
  constructor
  · intro hv
    constructor <;> simp [applyStyleScaling, applyStyleCategorical, hne, hv]
  · intro hv
    constructor <;> simp [applyStyleScaling, applyStyleCategorical, hne, hv]

/-- Witness for C7 (amended) at an invalid style name. -/
theorem C7_style_recovery_witness :
    applyStyleScaling (fun _ => false) "nostyle" = ("default", false)
    ∧ applyStyleCategorical (fun _ => false) "nostyle" = ("default", true) :=
  (C7_style_recovery (fun _ => false) "nostyle" (by decide)).1 rfl

end ScalingPlots
